import Mathlib

/-!
# Verification of the Orbital Camera & Hotspot Geodesy Engine

Shallow embedding of the globe-interface engine bundled in
`src/assets/index-Ien1UOMZ.js` (classes `le` = GlobeManager and
`de` = Interaction handler), together with proofs and refutations of the
specification's claims about it.

Real-valued JavaScript arithmetic is modelled over `ℝ`; `Math.pow` with a
real exponent is `Real.rpow`, `Math.atan2 y x` is the argument of the
complex number `x + y·i`, and `Math.acos` / `Math.sqrt` are Mathlib's
`Real.arccos` / `Real.sqrt`.
-/

noncomputable section

open Real

/-- A 3D vector, standing for a three.js `Vector3`. -/
structure Vec3 where
  x : ℝ
  y : ℝ
  z : ℝ

/-- JavaScript `Math.atan2 y x`, modelled as the principal argument of the
complex number `x + y·i` (both return the angle of the point `(x, y)` in
`(-π, π]`). -/
def atan2 (y x : ℝ) : ℝ :=
  Complex.arg (x + y * Complex.I)

/-! ## Geodesy conversions (claim C1)

`geoToSurface` is the hotspot-marker placement in `addHotspots` /
`activateHotspot`: with `n = lat·π/180`, `s = lng·π/180` and radius
`a = 2.1` it produces `(a·cos n·cos s, a·sin n, a·cos n·sin s)`.

`surfaceToGeo` is the click-to-geo conversion in `onMouseClick`: from an
intersection point `o` on the globe it computes `s = acos(o.y/2)`,
`a = atan2(o.z, o.x)`, `lat = 90 - s·180/π`, `lng = a·180/π - 180`. -/

/-- Geographic coordinates to a 3D surface point, as in `addHotspots`
(marker radius 2.1). -/
def geoToSurface (lat lng : ℝ) : Vec3 :=
  let n := lat * (Real.pi / 180)
  let s := lng * (Real.pi / 180)
  let a : ℝ := 2.1
  ⟨a * Real.cos n * Real.cos s, a * Real.sin n, a * Real.cos n * Real.sin s⟩

/-- 3D point back to geographic coordinates, as in the globe click handler
(`s = acos(y/2)`, `lat = 90 - s·180/π`, `lng = atan2(z,x)·180/π - 180`). -/
def surfaceToGeo (p : Vec3) : ℝ × ℝ :=
  let s := Real.arccos (p.y / 2)
  let a := atan2 p.z p.x
  (90 - s * 180 / Real.pi, a * 180 / Real.pi - 180)

/-! ## Orbit state (claims C2, C4, C5, C7, C9, C10)

`orbitParams` object literal from the `le` constructor. -/

/-- The `orbitParams` record of the GlobeManager. -/
structure OrbitParams where
  isOrbiting : Bool
  baseSpeed : ℝ
  currentSpeed : ℝ
  maxSpeed : ℝ
  accelerationFactor : ℝ
  decelerationFactor : ℝ
  ellipseMajorAxis : ℝ
  ellipseMinorAxis : ℝ
  inclination : ℝ
  orbitAngle : ℝ
  zoomLevel : ℝ
  maxZoomLevel : ℝ
  minZoomLevel : ℝ
  inHotspotMode : Bool
  orbitHistory : List Vec3

/-- The initial `orbitParams` literal:
`{isOrbiting:!0, baseSpeed:4e-4, currentSpeed:4e-4, maxSpeed:.002,
accelerationFactor:1.3, decelerationFactor:.9, ellipseMajorAxis:12,
ellipseMinorAxis:8, inclination:Math.PI/6, orbitAngle:0, zoomLevel:1,
maxZoomLevel:1.1, minZoomLevel:.6, inHotspotMode:!1, orbitHistory:[]}`. -/
def initOrbitParams : OrbitParams :=
  { isOrbiting := true
    baseSpeed := 4e-4
    currentSpeed := 4e-4
    maxSpeed := 0.002
    accelerationFactor := 1.3
    decelerationFactor := 0.9
    ellipseMajorAxis := 12
    ellipseMinorAxis := 8
    inclination := Real.pi / 6
    orbitAngle := 0
    zoomLevel := 1
    maxZoomLevel := 1.1
    minZoomLevel := 0.6
    inHotspotMode := false
    orbitHistory := [] }

/-! ## Camera position updates (claim C7) -/

/-- `updateCameraPosition`: when orbiting, computes the camera position on
the inclined ellipse, advances `orbitAngle` by `currentSpeed`, and pushes
the position onto `orbitHistory` (capped at 100 by shifting). Returns the
new params and the camera position (unchanged camera when not orbiting). -/
def updateCameraPosition (P : OrbitParams) (cam : Vec3) : OrbitParams × Vec3 :=
  if P.isOrbiting = false then (P, cam) else
    let e := P.ellipseMajorAxis * P.zoomLevel
    let t := P.ellipseMinorAxis * P.zoomLevel
    let i := e * Real.cos P.orbitAngle
    let o := t * Real.sin P.orbitAngle
    let s := o * Real.sin P.inclination
    let o2 := o * Real.cos P.inclination
    let pos : Vec3 := ⟨i, s, o2⟩
    let hist := P.orbitHistory ++ [pos]
    let hist2 := if hist.length > 100 then hist.tail else hist
    ({ P with orbitAngle := P.orbitAngle + P.currentSpeed, orbitHistory := hist2 }, pos)

/-- `_updateCameraPositionManual`: recomputes the camera position from the
same ellipse formula, without advancing the angle or touching history. -/
def updateCameraPositionManual (P : OrbitParams) : Vec3 :=
  let e := P.ellipseMajorAxis * P.zoomLevel
  let t := P.ellipseMinorAxis * P.zoomLevel
  let i := e * Real.cos P.orbitAngle
  let o := t * Real.sin P.orbitAngle
  let s := o * Real.sin P.inclination
  let o2 := o * Real.cos P.inclination
  ⟨i, s, o2⟩

/-! ## Scroll-wheel speed control (claims C2, C5, C9)

`handleMouseWheel` (class `de`), after the 50ms coalescing window: with the
accumulated delta `D` it computes `o = Math.sign(D)`,
`n = min(|D|/100, 2)` and branches on `o > 0`. -/

/-- One processed wheel batch with accumulated delta `D`, acting on
`orbitParams` (the `o > 0` branch decelerates via
`max(baseSpeed*0.5, currentSpeed * decelerationFactor^n)`, the other branch
accelerates via `min(maxSpeed, currentSpeed * accelerationFactor^n)`). -/
def wheelSpeedStep (P : OrbitParams) (D : ℝ) : OrbitParams :=
  let o := Real.sign D
  let n := min (|D| / 100) 2
  if o > 0 then
    { P with currentSpeed := (max (P.baseSpeed * 0.5)
        (P.currentSpeed * P.decelerationFactor ^ n)) }
  else
    { P with currentSpeed := (min P.maxSpeed
        (P.currentSpeed * P.accelerationFactor ^ n)) }

/-- gsap `power2.out` easing curve used by the 3-second quiet-period tween
towards `baseSpeed`. -/
def easeOutQuad (t : ℝ) : ℝ := 1 - (1 - t) ^ 2

/-- Clamp to `[0,1]`; gsap keeps a tween's progress ratio inside `[0,1]`. -/
def clamp01 (t : ℝ) : ℝ := max 0 (min 1 t)

/-- Orbit parameters together with the start value recorded by a running
quiet-period restore tween (`d.to(orbitParams, {currentSpeed: baseSpeed,
duration: 3, ease: "power2.out"})` snapshots `currentSpeed` when it
starts). -/
structure SpeedState where
  params : OrbitParams
  restoreTweenStart : Option ℝ

/-- Inputs that touch `currentSpeed`: a coalesced wheel batch; the 3s
quiet-period timeout firing, which starts the restore tween from the
current speed; a frame of the running restore tween at progress ratio `t`
(gsap-clamped to `[0,1]`, eased with `power2.out`, interpolating from the
tween's recorded start towards `baseSpeed`); and the delayed restore in
`exitHotspotMode` (after 500ms: `isOrbiting = true`,
`currentSpeed = baseSpeed`). -/
inductive SpeedInput where
  | wheel (D : ℝ)
  | quietTimeout
  | restoreFrame (t : ℝ)
  | exitFocus

/-- Apply one speed input. A restore-tween frame at eased progress `w`
sets `currentSpeed` to `s0 + (baseSpeed - s0) * w` where `s0` is the
tween's recorded start value (no-op when no tween is running). -/
def speedStep (st : SpeedState) : SpeedInput → SpeedState
  | .wheel D => { st with params := wheelSpeedStep st.params D }
  | .quietTimeout => { st with restoreTweenStart := some st.params.currentSpeed }
  | .restoreFrame t =>
      match st.restoreTweenStart with
      | none => st
      | some s0 =>
          let w := easeOutQuad (clamp01 t)
          { st with params :=
              { st.params with currentSpeed := (s0 +
                  (st.params.baseSpeed - s0) * w) } }
  | .exitFocus =>
      { st with params :=
          { st.params with isOrbiting := true, inHotspotMode := false,
                           currentSpeed := st.params.baseSpeed } }

/-- Run a sequence of speed inputs from the initial `orbitParams`, with no
tween pending. -/
def speedRun (inputs : List SpeedInput) : SpeedState :=
  inputs.foldl speedStep ⟨initOrbitParams, none⟩

/-! ## Zoom (claims C4, C10)

`zoom(e)` of the GlobeManager: `t = e ? 0.85 : 1.15`,
`i = zoomLevel * t`, `zoomLevel = Math.min(Math.max(i, minZoomLevel),
maxZoomLevel)`, and the camera position is tweened to
`(x·t, y·t, z·t)`. -/

/-- The `zoom` method: updates `zoomLevel` and scales the camera position
by the step factor (final value of the 0.5s tween). -/
def zoom (zoomIn : Bool) (P : OrbitParams) (cam : Vec3) : OrbitParams × Vec3 :=
  let t : ℝ := if zoomIn then 0.85 else 1.15
  let i := P.zoomLevel * t
  ({ P with zoomLevel := min (max i P.minZoomLevel) P.maxZoomLevel },
   ⟨cam.x * t, cam.y * t, cam.z * t⟩)

/-- Run a sequence of zoom steps on a params/camera pair. -/
def zoomRun (steps : List Bool) (st : OrbitParams × Vec3) : OrbitParams × Vec3 :=
  steps.foldl (fun st e => zoom e st.1 st.2) st

/-! ## Hotspot activation (claim C3)

`activateHotspot(e)` guards only on `inHotspotMode`
(`if(this.orbitParams.inHotspotMode)return`), then creates a scan effect at
the hotspot's geo position, stops orbiting, and starts a 1.5s camera tween
towards `normalize(surfacePosition)·3.5` plus a fov tween to 40;
`inHotspotMode` is set to `true` only in the tween's `onComplete`. -/

/-- A hotspot record from the catalog (the geo position; payload fields the
engine does not read are omitted). -/
structure Hotspot where
  lat : ℝ
  lng : ℝ

/-- Euclidean norm of a `Vec3` (three.js `Vector3.length`). -/
def vecNorm (v : Vec3) : ℝ := Real.sqrt (v.x ^ 2 + v.y ^ 2 + v.z ^ 2)

/-- three.js `normalize().multiplyScalar(3.5)` applied to the hotspot's
surface position: the camera tween target of `activateHotspot`. -/
def focusTargetOf (h : Hotspot) : Vec3 :=
  let p := geoToSurface h.lat h.lng
  let n := vecNorm p
  ⟨p.x / n * 3.5, p.y / n * 3.5, p.z / n * 3.5⟩

/-- Observable GlobeManager state touched by hotspot activation: the
`orbitParams` record, the pending camera-tween target with the pending fov
target, and the position of the last spawned scan effect. -/
structure GlobeState where
  params : OrbitParams
  cameraTweenTarget : Option Vec3
  fovTweenTarget : Option ℝ
  scanEffectAt : Option (ℝ × ℝ)

/-- `activateHotspot`: no-op when `inHotspotMode` is set; otherwise spawns
the scan effect, clears `isOrbiting`, and starts the camera and fov tweens
(the 1.5s transition — `inHotspotMode` stays `false` until `onComplete`). -/
def activateHotspot (h : Hotspot) (st : GlobeState) : GlobeState :=
  if st.params.inHotspotMode then st
  else
    { st with
        scanEffectAt := some (h.lat, h.lng)
        params := { st.params with isOrbiting := false }
        cameraTweenTarget := some (focusTargetOf h)
        fovTweenTarget := some 40 }

/-- The camera tween's `onComplete`: sets `inHotspotMode := true`, moving
the machine from the in-flight transition to the locked state. -/
def completeFocusTween (st : GlobeState) : GlobeState :=
  { st with params := { st.params with inHotspotMode := true } }

/-! ## Per-hotspot visibility (claim C6)

The closure `a(r)` built in `addHotspotLabel`: project the world position
to normalized device coordinates `c`; return `false` when
`c.z > 1 || c.x < -1 || c.x > 1 || c.y < -1 || c.y > 1`; otherwise raycast
from the camera towards the point against the globe mesh; with a first hit
at distance `h` and camera-to-point distance `E` return `h > E - 0.1`,
and `true` when the ray misses.

Projection and raycasting live in the external three.js library, so the
NDC result `c`, the first-hit distance (`none` when the ray misses the
globe) and the camera-to-hotspot distance `E` are taken as inputs. -/

/-- The NDC bounds test of `a(r)`:
`c.z > 1 || c.x < -1 || c.x > 1 || c.y < -1 || c.y > 1`. -/
def ndcOutOfBounds (c : Vec3) : Prop :=
  c.z > 1 ∨ c.x < -1 ∨ c.x > 1 ∨ c.y < -1 ∨ c.y > 1

/-- The visibility predicate computed by the closure `a(r)`: inside the NDC
bounds, and either the occlusion ray misses the globe or its first hit is
farther than `E - 0.1`. -/
def hotspotVisible (c : Vec3) (hit : Option ℝ) (E : ℝ) : Prop :=
  ¬ ndcOutOfBounds c ∧
    match hit with
    | some h => h > E - 0.1
    | none => True

/-- The not-visible condition as claim C6 words it: projection out of
bounds, or the ray hits the globe at a distance strictly less than the
camera-to-hotspot distance minus the 0.1 tolerance. -/
def claimNotVisible (c : Vec3) (hit : Option ℝ) (E : ℝ) : Prop :=
  ndcOutOfBounds c ∨ ∃ h, hit = some h ∧ h < E - 0.1

/-! ## Label layout (claim C8)

The label-placement block of `onBeforeRender`: with marker screen position
`(p, u)`, viewport `W × H`, screen center `(m, h)`, distance `E` and angle
`w` from the center, and clear-zone radius `M = min(m, h) * 0.6`:

inside the clear zone (`E < M`) the label goes to the radial position at
distance `M + 60 + sin(5w)·20`, then is clamped to 20px margins; outside
it, with `S = title.length·8`, `f = 25 + S·0.25`, `P = 10`, the label is
placed at `p + f` (flipped to `p - f - S` when `p + f + S > W - 20`) and
`u - P` (flipped to `u + P` when `u - P - 30 < 20`), with no clamping. -/

/-- Label position for a marker at screen `(p, u)` with title length
`len`, viewport `W × H`, as computed in `onBeforeRender`. -/
def labelLayout (len : ℕ) (p u W H : ℝ) : ℝ × ℝ :=
  let m := W / 2
  let h := H / 2
  let E := Real.sqrt ((p - m) ^ 2 + (u - h) ^ 2)
  let w := atan2 (u - h) (p - m)
  let M := min m h * 0.6
  if E < M then
    let S := M + 60 + Real.sin (w * 5) * 20
    let g := m + Real.cos w * S
    let b := h + Real.sin w * S
    let g1 := if g < 20 then 20 else g
    let g2 := if g1 > W - 20 then W - 20 else g1
    let b1 := if b < 20 then 20 else b
    let b2 := if b1 > H - 20 then H - 20 else b1
    (g2, b2)
  else
    let S := (len : ℝ) * 8
    let f := 25 + S * 0.25
    let Pv : ℝ := 10
    let g := if p + f + S > W - 20 then p - f - S else p + f
    let b := if u - Pv - 30 < 20 then u + Pv else u - Pv
    (g, b)

/-! # Theorems -/

/-! ## Claim C9 — speed adjustment factors -/

/-- C9, counterexample: the claim that `accelerationFactor > 1` and
`decelerationFactor > 1` fails on the initial `orbitParams`, whose
`decelerationFactor` is `0.9`. -/
theorem c9_factors_counterexample :
    ¬ (1 < initOrbitParams.accelerationFactor ∧
       1 < initOrbitParams.decelerationFactor) := by
  intro h
  have h2 := h.2
  norm_num [initOrbitParams] at h2

/-- C9, amended: the per-input-tick factors satisfy
`accelerationFactor > 1` (it is `1.3`) and `0 < decelerationFactor < 1`
(it is `0.9`), so acceleration multiplies the speed up and deceleration
multiplies it down. -/
theorem c9_factors_amended :
    1 < initOrbitParams.accelerationFactor ∧
    0 < initOrbitParams.decelerationFactor ∧
    initOrbitParams.decelerationFactor < 1 := by
  norm_num [initOrbitParams]

/-! ## Claim C10 — frame effect of `zoom` -/

/-- C10: a `zoom` call changes only `zoomLevel` (multiplied by the step
factor and clamped) and the camera position (each coordinate scaled by the
step factor); `orbitAngle`, `currentSpeed`, `baseSpeed`, `maxSpeed`,
`inclination`, both ellipse axes, the zoom bounds, `isOrbiting` and the
hotspot-mode flag are unchanged. -/
theorem c10_zoom_frame_effect (e : Bool) (P : OrbitParams) (cam : Vec3) :
    (zoom e P cam).1.orbitAngle = P.orbitAngle ∧
    (zoom e P cam).1.currentSpeed = P.currentSpeed ∧
    (zoom e P cam).1.baseSpeed = P.baseSpeed ∧
    (zoom e P cam).1.maxSpeed = P.maxSpeed ∧
    (zoom e P cam).1.inclination = P.inclination ∧
    (zoom e P cam).1.ellipseMajorAxis = P.ellipseMajorAxis ∧
    (zoom e P cam).1.ellipseMinorAxis = P.ellipseMinorAxis ∧
    (zoom e P cam).1.minZoomLevel = P.minZoomLevel ∧
    (zoom e P cam).1.maxZoomLevel = P.maxZoomLevel ∧
    (zoom e P cam).1.isOrbiting = P.isOrbiting ∧
    (zoom e P cam).1.inHotspotMode = P.inHotspotMode ∧
    (zoom e P cam).1.orbitHistory = P.orbitHistory ∧
    (zoom e P cam).1.zoomLevel =
      min (max (P.zoomLevel * (if e then 0.85 else 1.15)) P.minZoomLevel)
        P.maxZoomLevel ∧
    (zoom e P cam).2 = ⟨cam.x * (if e then 0.85 else 1.15),
      cam.y * (if e then 0.85 else 1.15), cam.z * (if e then 0.85 else 1.15)⟩ := by
  refine ⟨rfl, rfl, rfl, rfl, rfl, rfl, rfl, rfl, rfl, rfl, rfl, rfl, rfl, rfl⟩

/-! ## Claim C7 — time-driven and event-driven camera updates agree -/

/-- C7: while orbiting, the camera position produced by the time-driven
`updateCameraPosition` equals the one produced by the event-driven
`_updateCameraPositionManual` on the same orbit parameters — both paths
evaluate the same inclined-ellipse formula. -/
theorem c7_dual_path_same_pose (P : OrbitParams) (cam : Vec3)
    (h : P.isOrbiting = true) :
    (updateCameraPosition P cam).2 = updateCameraPositionManual P := by
  simp [updateCameraPosition, updateCameraPositionManual, h]

/-- C7, witness: the two camera-update paths agree on the initial orbit
parameters. -/
theorem c7_dual_path_same_pose_witness :
    initOrbitParams.isOrbiting = true ∧
    (updateCameraPosition initOrbitParams ⟨0, 0, 0⟩).2 =
      updateCameraPositionManual initOrbitParams :=
  ⟨rfl, c7_dual_path_same_pose initOrbitParams ⟨0, 0, 0⟩ rfl⟩

/-! ## Claim C5 — wheel batch speed update formula -/

/-- C5: a coalesced scroll batch with accumulated delta `D` updates the
speed with magnitude factor `n = min(|D|/100, 2)`: decelerating (`D > 0`)
sets `max(baseSpeed*0.5, currentSpeed * decelerationFactor^n)`,
accelerating sets `min(maxSpeed, currentSpeed * accelerationFactor^n)`. -/
theorem c5_wheel_batch_update (P : OrbitParams) (D : ℝ) :
    (wheelSpeedStep P D).currentSpeed =
      if 0 < D then
        max (P.baseSpeed * 0.5)
          (P.currentSpeed * P.decelerationFactor ^ (min (|D| / 100) 2))
      else
        min P.maxSpeed
          (P.currentSpeed * P.accelerationFactor ^ (min (|D| / 100) 2)) := by
  rcases lt_trichotomy D 0 with hD | hD | hD
  · rw [wheelSpeedStep, if_neg, if_neg (not_lt.2 hD.le)]
    rw [Real.sign_of_neg hD]
    norm_num
  · subst hD
    rw [wheelSpeedStep, if_neg, if_neg (lt_irrefl 0)]
    rw [Real.sign_zero]
    norm_num
  · rw [wheelSpeedStep, if_pos, if_pos hD]
    rw [Real.sign_of_pos hD]
    norm_num

/-! ## Claim C4 — zoom level stays in `[minZoomLevel, maxZoomLevel]` -/

/-- One `zoom` step lands `zoomLevel` inside the zoom bounds whenever the
bounds are ordered, and it leaves the bounds themselves untouched. -/
lemma zoom_step_zoomLevel_mem (e : Bool) (P : OrbitParams) (cam : Vec3)
    (hmm : P.minZoomLevel ≤ P.maxZoomLevel) :
    P.minZoomLevel ≤ (zoom e P cam).1.zoomLevel ∧
    (zoom e P cam).1.zoomLevel ≤ P.maxZoomLevel := by
  constructor
  · exact le_min (le_max_right _ _) hmm
  · exact min_le_right _ _

/-- A `zoomRun` does not change the zoom bounds. -/
lemma zoomRun_limits (steps : List Bool) (st : OrbitParams × Vec3) :
    (zoomRun steps st).1.minZoomLevel = st.1.minZoomLevel ∧
    (zoomRun steps st).1.maxZoomLevel = st.1.maxZoomLevel := by
  induction steps generalizing st with
  | nil => exact ⟨rfl, rfl⟩
  | cons e es ih =>
      have h := ih (zoom e st.1 st.2)
      exact ⟨h.1, h.2⟩

/-- Zoom-level membership is preserved along a whole `zoomRun`. -/
lemma zoomRun_zoomLevel_mem (steps : List Bool) (st : OrbitParams × Vec3)
    (h1 : st.1.minZoomLevel ≤ st.1.zoomLevel)
    (h2 : st.1.zoomLevel ≤ st.1.maxZoomLevel)
    (hmm : st.1.minZoomLevel ≤ st.1.maxZoomLevel) :
    st.1.minZoomLevel ≤ (zoomRun steps st).1.zoomLevel ∧
    (zoomRun steps st).1.zoomLevel ≤ st.1.maxZoomLevel := by
  induction steps generalizing st with
  | nil => exact ⟨h1, h2⟩
  | cons e es ih =>
      have hmem := zoom_step_zoomLevel_mem e st.1 st.2 hmm
      exact ih (zoom e st.1 st.2) hmem.1 hmem.2 hmm

/-- C4: starting from a `zoomLevel` inside `[minZoomLevel, maxZoomLevel]`
(with ordered bounds, as in the initial parameters `0.6 ≤ 1.1`), every
sequence of `zoom` calls — each multiplying by `0.85` or `1.15` and
clamping — keeps `zoomLevel` inside `[minZoomLevel, maxZoomLevel]`. -/
theorem c4_zoom_level_invariant (P : OrbitParams) (cam : Vec3)
    (h1 : P.minZoomLevel ≤ P.zoomLevel) (h2 : P.zoomLevel ≤ P.maxZoomLevel)
    (hmm : P.minZoomLevel ≤ P.maxZoomLevel) (steps : List Bool) :
    P.minZoomLevel ≤ (zoomRun steps (P, cam)).1.zoomLevel ∧
    (zoomRun steps (P, cam)).1.zoomLevel ≤ P.maxZoomLevel :=
  zoomRun_zoomLevel_mem steps (P, cam) h1 h2 hmm

/-- C4, witness: from the initial parameters, a zoom-in followed by two
zoom-outs keeps `zoomLevel` inside `[0.6, 1.1]`. -/
theorem c4_zoom_level_invariant_witness :
    initOrbitParams.minZoomLevel ≤ initOrbitParams.zoomLevel ∧
    initOrbitParams.zoomLevel ≤ initOrbitParams.maxZoomLevel ∧
    initOrbitParams.minZoomLevel ≤
      (zoomRun [true, false, false] (initOrbitParams, ⟨0, 0, 0⟩)).1.zoomLevel ∧
    (zoomRun [true, false, false] (initOrbitParams, ⟨0, 0, 0⟩)).1.zoomLevel ≤
      initOrbitParams.maxZoomLevel := by
  have h := c4_zoom_level_invariant initOrbitParams ⟨0, 0, 0⟩
    (by norm_num [initOrbitParams]) (by norm_num [initOrbitParams])
    (by norm_num [initOrbitParams]) [true, false, false]
  exact ⟨by norm_num [initOrbitParams], by norm_num [initOrbitParams], h.1, h.2⟩

/-! ## Claim C2 — `currentSpeed` stays in `[baseSpeed*0.5, maxSpeed]` -/

/-- Invariant carried through the speed-input fold: the speed bounds, the
facts about the constant fields that make each step preserve them, and the
bounds on the recorded tween start, when a restore tween is running. -/
def SpeedInv (st : SpeedState) : Prop :=
  st.params.baseSpeed * 0.5 ≤ st.params.currentSpeed ∧
  st.params.currentSpeed ≤ st.params.maxSpeed ∧
  0 < st.params.baseSpeed ∧ st.params.baseSpeed ≤ st.params.maxSpeed ∧
  0 ≤ st.params.decelerationFactor ∧ st.params.decelerationFactor ≤ 1 ∧
  1 ≤ st.params.accelerationFactor ∧
  ∀ s0, st.restoreTweenStart = some s0 →
    st.params.baseSpeed * 0.5 ≤ s0 ∧ s0 ≤ st.params.maxSpeed

/-- The magnitude factor of a wheel batch is nonnegative. -/
lemma magnitude_factor_nonneg (D : ℝ) : 0 ≤ min (|D| / 100) 2 :=
  le_min (by positivity) (by norm_num)

/-- The eased, clamped tween progress lies in `[0, 1]`. -/
lemma easeOutQuad_clamp01_mem (t : ℝ) :
    0 ≤ easeOutQuad (clamp01 t) ∧ easeOutQuad (clamp01 t) ≤ 1 := by
  have h0 : 0 ≤ clamp01 t := le_max_left _ _
  have h1 : clamp01 t ≤ 1 := max_le zero_le_one (min_le_left _ _)
  unfold easeOutQuad
  constructor
  · nlinarith [sq_nonneg (clamp01 t)]
  · nlinarith [sq_nonneg (1 - clamp01 t)]

/-- Every speed input preserves the speed invariant. -/
lemma speedStep_preserves_inv (st : SpeedState) (i : SpeedInput)
    (h : SpeedInv st) : SpeedInv (speedStep st i) := by
  obtain ⟨hlo, hhi, hbase, hbm, hdec0, hdec1, hacc, htween⟩ := h
  have hs0 : (0 : ℝ) ≤ st.params.currentSpeed := le_trans (by linarith) hlo
  cases i with
  | wheel D =>
      have hn := magnitude_factor_nonneg D
      rw [speedStep, wheelSpeedStep]
      split
      · refine ⟨le_max_left _ _, ?_, hbase, hbm, hdec0, hdec1, hacc, htween⟩
        have hpow : st.params.decelerationFactor ^ (min (|D| / 100) 2) ≤ 1 :=
          Real.rpow_le_one hdec0 hdec1 hn
        have : st.params.currentSpeed *
            st.params.decelerationFactor ^ (min (|D| / 100) 2)
            ≤ st.params.currentSpeed := mul_le_of_le_one_right hs0 hpow
        exact max_le (by linarith) (by linarith)
      · have hpow : (1 : ℝ) ≤
            st.params.accelerationFactor ^ (min (|D| / 100) 2) := by
          have := Real.rpow_le_rpow_of_exponent_le hacc hn
          rwa [Real.rpow_zero] at this
        have : st.params.currentSpeed ≤
            st.params.currentSpeed *
              st.params.accelerationFactor ^ (min (|D| / 100) 2) :=
          le_mul_of_one_le_right hs0 hpow
        exact ⟨le_min (by linarith) (by linarith), min_le_left _ _,
          hbase, hbm, hdec0, hdec1, hacc, htween⟩
  | quietTimeout =>
      refine ⟨hlo, hhi, hbase, hbm, hdec0, hdec1, hacc, ?_⟩
      intro s0 hs
      simp only [speedStep] at hs
      rw [Option.some.inj hs] at hlo hhi
      exact ⟨hlo, hhi⟩
  | restoreFrame t =>
      have hw := easeOutQuad_clamp01_mem t
      rw [speedStep]
      cases hcase : st.restoreTweenStart with
      | none => exact ⟨hlo, hhi, hbase, hbm, hdec0, hdec1, hacc, htween⟩
      | some s0 =>
          obtain ⟨hts0, hts1⟩ := htween s0 hcase
          refine ⟨?_, ?_, hbase, hbm, hdec0, hdec1, hacc, ?_⟩
          · simp only []
            nlinarith [hw.1, hw.2]
          · simp only []
            nlinarith [hw.1, hw.2]
          · intro s1 hs1
            have heq : s0 = s1 := Option.some.inj hs1
            rw [← heq]
            exact ⟨hts0, hts1⟩
  | exitFocus =>
      refine ⟨by simp only [speedStep]; linarith, ?_, hbase, hbm,
        hdec0, hdec1, hacc, ?_⟩
      · simp only [speedStep]
        exact hbm
      · intro s0 hs
        exact htween s0 hs

/-- A fold of speed inputs preserves the invariant and leaves `baseSpeed`
and `maxSpeed` untouched. -/
lemma speedFold_inv (inputs : List SpeedInput) (st : SpeedState)
    (h : SpeedInv st) :
    SpeedInv (inputs.foldl speedStep st) ∧
    (inputs.foldl speedStep st).params.baseSpeed = st.params.baseSpeed ∧
    (inputs.foldl speedStep st).params.maxSpeed = st.params.maxSpeed := by
  induction inputs generalizing st with
  | nil => exact ⟨h, rfl, rfl⟩
  | cons i is ih =>
      have hstep := speedStep_preserves_inv st i h
      have hbase : (speedStep st i).params.baseSpeed = st.params.baseSpeed := by
        cases i with
        | wheel D => rw [speedStep, wheelSpeedStep]; split <;> rfl
        | quietTimeout => rfl
        | restoreFrame t => rw [speedStep]; cases st.restoreTweenStart <;> rfl
        | exitFocus => rfl
      have hmax : (speedStep st i).params.maxSpeed = st.params.maxSpeed := by
        cases i with
        | wheel D => rw [speedStep, wheelSpeedStep]; split <;> rfl
        | quietTimeout => rfl
        | restoreFrame t => rw [speedStep]; cases st.restoreTweenStart <;> rfl
        | exitFocus => rfl
      obtain ⟨h1, h2, h3⟩ := ih (speedStep st i) hstep
      exact ⟨h1, h2.trans hbase, h3.trans hmax⟩

/-- C2: starting from the initial orbit parameters, after any sequence of
wheel batches, quiet-period timeouts, restore-tween frames and focus
exits, `currentSpeed` never drops below `baseSpeed * 0.5` and never
exceeds `maxSpeed`. -/
theorem c2_speed_invariant (inputs : List SpeedInput) :
    initOrbitParams.baseSpeed * 0.5 ≤ (speedRun inputs).params.currentSpeed ∧
    (speedRun inputs).params.currentSpeed ≤ initOrbitParams.maxSpeed := by
  have hinit : SpeedInv ⟨initOrbitParams, none⟩ := by
    refine ⟨?_, ?_, ?_, ?_, ?_, ?_, ?_, fun s0 hs => absurd hs (by simp)⟩ <;>
      norm_num [initOrbitParams]
  obtain ⟨⟨h1, h2, _⟩, hbase, hmax⟩ :=
    speedFold_inv inputs ⟨initOrbitParams, none⟩ hinit
  rw [speedRun]
  constructor
  · rw [← hbase]; exact h1
  · rw [← hmax]; exact h2

/-! ## Claim C3 — activation during a transition -/

/-- The GlobeManager state right after start-up: initial `orbitParams`, no
pending tween, no scan effect. -/
def initGlobeState : GlobeState :=
  { params := initOrbitParams
    cameraTweenTarget := none
    fovTweenTarget := none
    scanEffectAt := none }

/-- The state in the middle of the 1.5s focus transition towards the
hotspot at `(0, 0)`: `isOrbiting` already cleared, `inHotspotMode` still
unset because the camera tween has not completed. -/
def midTransitionState : GlobeState :=
  activateHotspot ⟨0, 0⟩ initGlobeState

/-- C3, counterexample: in the mid-transition state the mode is not
Orbiting (`isOrbiting = false`, `inHotspotMode = false`), yet activating a
second hotspot at `(10, 20)` is not a no-op — it changes the state (a new
scan effect is spawned and the camera tween is redirected), because the
guard `if (inHotspotMode) return` does not fire before the first tween's
`onComplete`. -/
theorem c3_transition_not_rejected :
    midTransitionState.params.isOrbiting = false ∧
    midTransitionState.params.inHotspotMode = false ∧
    activateHotspot ⟨10, 20⟩ midTransitionState ≠ midTransitionState := by
  refine ⟨rfl, rfl, ?_⟩
  intro hEq
  have hscan := congrArg GlobeState.scanEffectAt hEq
  have h1 : (activateHotspot ⟨10, 20⟩ midTransitionState).scanEffectAt =
      some ((10 : ℝ), (20 : ℝ)) := rfl
  have h2 : midTransitionState.scanEffectAt = some ((0 : ℝ), (0 : ℝ)) := rfl
  rw [h1, h2] at hscan
  have := (Prod.mk.injEq _ _ _ _).mp (Option.some.inj hscan)
  norm_num at this

/-- C3, amended: `activateHotspot` is a no-op — the entire state unchanged
— whenever the hotspot-mode flag is set, i.e. once the focus transition has
completed and the camera is locked; during the in-flight transition the
flag is still `false` and a concurrent activation is accepted (it restarts
the transition towards the new hotspot) rather than rejected. -/
theorem c3_locked_noop (h : Hotspot) (st : GlobeState)
    (hm : st.params.inHotspotMode = true) :
    activateHotspot h st = st := by
  rw [activateHotspot, if_pos hm]

/-- C3, witness: after the focus tween completes (`inHotspotMode = true`),
activating another hotspot leaves the state unchanged. -/
theorem c3_locked_noop_witness :
    (completeFocusTween midTransitionState).params.inHotspotMode = true ∧
    activateHotspot ⟨10, 20⟩ (completeFocusTween midTransitionState) =
      completeFocusTween midTransitionState :=
  ⟨rfl, c3_locked_noop ⟨10, 20⟩ (completeFocusTween midTransitionState) rfl⟩

/-! ## Claim C1 — geodesy round trip -/

/-- The hotspot at `(lat = 0, lng = 0)` is placed at the 3D point
`(2.1, 0, 0)`. -/
lemma geoToSurface_origin : geoToSurface 0 0 = ⟨2.1, 0, 0⟩ := by
  simp [geoToSurface]

/-- C1, evaluation at the failing input: the round trip at
`(lat = 0, lng = 0)` returns `(0, -180)` — the click-to-geo conversion
subtracts 180° from the longitude the marker-placement conversion used, so
the recovered longitude misses the original by 180°, far beyond the 1e-6
tolerance. -/
theorem c1_roundtrip_fails_at_origin :
    surfaceToGeo (geoToSurface 0 0) = (0, -180) ∧
    ¬ |(surfaceToGeo (geoToSurface 0 0)).2 - 0| ≤ 1e-6 := by
  have hmain : surfaceToGeo (geoToSurface 0 0) = (0, -180) := by
    rw [geoToSurface_origin]
    rw [surfaceToGeo]
    have hacos : Real.arccos ((0 : ℝ) / 2) = Real.pi / 2 := by
      rw [zero_div, Real.arccos_zero]
    have hatan : atan2 (0 : ℝ) (2.1 : ℝ) = 0 := by
      rw [atan2]
      push_cast
      rw [zero_mul, add_zero]
      exact Complex.arg_ofReal_of_nonneg (by norm_num)
    simp only [hacos, hatan]
    rw [Prod.mk.injEq]
    refine ⟨?_, ?_⟩
    · field_simp
      ring
    · norm_num
  refine ⟨hmain, ?_⟩
  rw [hmain]
  norm_num

/-! ## Claim C6 — visibility and occlusion characterization -/

/-- C6, counterexample: a hotspot whose projection is at the NDC origin,
with the occlusion ray hitting the globe at distance exactly
`E - 0.1 = 1.0` (`E = 1.1`), is marked not visible by the code (which
requires `h > E - 0.1` for visibility), while the claim's characterization
(`h < E - 0.1` for occlusion) says it should be visible. -/
theorem c6_boundary_counterexample :
    ¬ hotspotVisible ⟨0, 0, 0⟩ (some 1) 1.1 ∧
    ¬ claimNotVisible ⟨0, 0, 0⟩ (some 1) 1.1 := by
  constructor
  · intro h
    have h2 := h.2
    norm_num at h2
  · intro h
    rcases h with hoob | ⟨h, hh, hlt⟩
    · rcases hoob with h1 | h1 | h1 | h1 | h1 <;> norm_num at h1
    · rw [← Option.some.inj hh] at hlt
      norm_num at hlt

/-- C6, amended: outside focus-lock a hotspot is marked not visible exactly
when its projection leaves the code's NDC bounds
(`z > 1` or `x`/`y` outside `[-1, 1]`) or the occlusion ray from the camera
hits the globe at a distance at most `E - 0.1` (less than **or equal to**
the camera-to-hotspot distance minus the 0.1 tolerance — the code keeps a
hotspot visible only for a hit strictly beyond `E - 0.1`). -/
theorem c6_not_visible_iff (c : Vec3) (hit : Option ℝ) (E : ℝ) :
    ¬ hotspotVisible c hit E ↔
      ndcOutOfBounds c ∨ ∃ h, hit = some h ∧ h ≤ E - 0.1 := by
  cases hit with
  | none =>
      simp only [hotspotVisible]
      constructor
      · intro h
        left
        by_contra hoob
        exact h ⟨hoob, trivial⟩
      · rintro (hoob | ⟨h, hh, _⟩)
        · intro hv
          exact hv.1 hoob
        · exact absurd hh (by simp)
  | some h =>
      simp only [hotspotVisible]
      constructor
      · intro hnv
        by_cases hoob : ndcOutOfBounds c
        · exact Or.inl hoob
        · refine Or.inr ⟨h, rfl, ?_⟩
          by_contra hgt
          exact hnv ⟨hoob, lt_of_not_le hgt⟩
      · rintro (hoob | ⟨h2, hh2, hle⟩) hv
        · exact hv.1 hoob
        · rw [← Option.some.inj hh2] at hle
          exact absurd hv.2 (not_lt.2 hle)

/-! ## Claim C8 — label positions and the 20px margin -/

/-- C8, counterexample: in an 800×600 viewport, a marker at screen
`(10, 300)` with a 100-character title falls outside the clear zone
(distance 390 from the center, radius 180), the horizontal flip triggers
(`10 + 225 + 800 > 780`), and the unclamped else-branch puts the label at
`x = 10 - 225 - 800 = -1015`, far outside the 20px margin. -/
theorem c8_margin_counterexample :
    labelLayout 100 10 300 800 600 = (-1015, 290) ∧
    ¬ (20 ≤ (labelLayout 100 10 300 800 600).1) := by
  have hsq : (((10 : ℝ) - 800 / 2) ^ 2 + ((300 : ℝ) - 600 / 2) ^ 2) = 390 ^ 2 := by
    norm_num
  have hE : Real.sqrt (((10 : ℝ) - 800 / 2) ^ 2 + ((300 : ℝ) - 600 / 2) ^ 2) = 390 := by
    rw [hsq]; exact Real.sqrt_sq (by norm_num)
  have hmain : labelLayout 100 10 300 800 600 = (-1015, 290) := by
    simp only [labelLayout, hE]
    norm_num
  refine ⟨hmain, ?_⟩
  rw [hmain]
  norm_num

/-- C8, amended: only the clear-zone branch clamps the label into the 20px
margin: for any marker inside the central clear zone (and any viewport at
least 40px in each dimension) the label position stays within 20px of the
viewport edges, while outside the clear zone the label is only
offset/flipped, without clamping, and can leave the margin. -/
theorem c8_clear_zone_clamped (len : ℕ) (p u W H : ℝ)
    (hW : 40 ≤ W) (hH : 40 ≤ H)
    (hzone : Real.sqrt ((p - W / 2) ^ 2 + (u - H / 2) ^ 2) <
      min (W / 2) (H / 2) * 0.6) :
    20 ≤ (labelLayout len p u W H).1 ∧ (labelLayout len p u W H).1 ≤ W - 20 ∧
    20 ≤ (labelLayout len p u W H).2 ∧ (labelLayout len p u W H).2 ≤ H - 20 := by
  simp only [labelLayout]
  rw [if_pos hzone]
  refine ⟨?_, ?_, ?_, ?_⟩ <;> simp only [] <;> split_ifs <;> linarith

/-- C8, witness: a marker at the exact center of an 800×600 viewport is in
the clear zone and its label lands within the 20px margins. -/
theorem c8_clear_zone_clamped_witness :
    (40 : ℝ) ≤ 800 ∧ (40 : ℝ) ≤ 600 ∧
    Real.sqrt (((400 : ℝ) - 800 / 2) ^ 2 + ((300 : ℝ) - 600 / 2) ^ 2) <
      min ((800 : ℝ) / 2) ((600 : ℝ) / 2) * 0.6 ∧
    (20 ≤ (labelLayout 5 400 300 800 600).1 ∧
     (labelLayout 5 400 300 800 600).1 ≤ 800 - 20 ∧
     20 ≤ (labelLayout 5 400 300 800 600).2 ∧
     (labelLayout 5 400 300 800 600).2 ≤ 600 - 20) := by
  have hz : Real.sqrt (((400 : ℝ) - 800 / 2) ^ 2 + ((300 : ℝ) - 600 / 2) ^ 2) <
      min ((800 : ℝ) / 2) ((600 : ℝ) / 2) * 0.6 := by
    rw [show (((400 : ℝ) - 800 / 2) ^ 2 + ((300 : ℝ) - 600 / 2) ^ 2) = 0 by norm_num]
    rw [Real.sqrt_zero]
    norm_num
  exact ⟨by norm_num, by norm_num, hz,
    c8_clear_zone_clamped 5 400 300 800 600 (by norm_num) (by norm_num) hz⟩
